import Mathlib

/-!
Verification development for the nat-checker repository.

Shallow embedding of the NAT detection and classification pipeline:
the NAT classifier (src/unnamed/part_002, `classifyNAT`), the mapping
analyzer and local probe (src/unnamed/part_003), the STUN binding codec
and rendezvous server (src/unnamed/part_005), the advanced-test
orchestrator (src/app/api/nat-detect/advanced/route.ts) and the advanced
result assembly (src/lib/nat-detection/advanced-detector.ts).

Buffers are modelled as lists of byte values (`List Nat`), machine
integers as `Nat` with explicit `% 256` / `% 65536` where the source
performs byte-level writes, JavaScript `null`/`undefined` as `Option`,
and JavaScript truthy/falsy tests on strings and numbers explicitly
(`""` and `0` are falsy).
-/

namespace NatChecker

/-- NAT type taxonomy; `enum NATType` in src/unnamed/part_003 lines 9-59. -/
inductive NATType where
  | CONE_NAT
  | FULL_CONE
  | RESTRICTED_CONE
  | PORT_RESTRICTED_CONE
  | SYMMETRIC
  | NO_NAT
  | MULTIPLE_LAYERS
deriving DecidableEq, Repr

/-- Detection confidence level; `type DetectionConfidence = "high" | "low"`
in src/unnamed/part_003 line 113. -/
inductive Confidence where
  | high
  | low
deriving DecidableEq, Repr

/-- `interface IPAddressInfo` in src/unnamed/part_003 lines 85-96.
`publicIP`/`publicPort` are nullable in the source. -/
structure IPAddressInfo where
  localIP : String
  publicIP : Option String
  publicPort : Option Nat
  isBehindLocalNAT : Bool
  isBehindCGNAT : Bool
deriving DecidableEq, Repr

/-- One observed (external IP, external port) pair, the element type of
`PortMappingInfo.observedMappings` in src/unnamed/part_003 line 107. -/
structure ObservedMapping where
  ip : String
  port : Nat
deriving DecidableEq, Repr

/-- `interface PortMappingInfo` in src/unnamed/part_003 lines 101-108. -/
structure PortMappingInfo where
  isPortConsistent : Bool
  isIPConsistent : Bool
  observedMappings : List ObservedMapping
deriving DecidableEq, Repr

/-- `classifyNAT` in src/unnamed/part_002 lines 100-165: the decision
chain over NAT-layer flags and mapping-consistency flags, in source
order (console logging elided). -/
def classifyNAT (ipInfo : IPAddressInfo) (portMapping : PortMappingInfo) : NATType :=
  if ipInfo.isBehindLocalNAT && ipInfo.isBehindCGNAT then
    NATType.MULTIPLE_LAYERS
  else if !ipInfo.isBehindLocalNAT && !ipInfo.isBehindCGNAT then
    NATType.NO_NAT
  else if !portMapping.isPortConsistent || !portMapping.isIPConsistent then
    NATType.SYMMETRIC
  else if portMapping.isIPConsistent && portMapping.isPortConsistent then
    NATType.CONE_NAT
  else
    NATType.SYMMETRIC

/-- JavaScript truthiness of a nullable string: `null`, `undefined` and
`""` are falsy. -/
def strFalsy : Option String → Bool
  | none => true
  | some s => s == ""

/-- JavaScript `a || b` on nullable strings. -/
def jsStrOr (a b : Option String) : Option String :=
  if strFalsy a then b else a

/-- One ICE candidate as consumed by the detection code: its `type`, its
SDP `candidate` string, the standard `address` property, the non-standard
`ip` property (`ExtendedRTCIceCandidate` in src/unnamed/part_003 lines
337-339) and its `port`.  `Option` models `null`/`undefined`. -/
structure ICECandidate where
  typ : String
  candidate : String
  address : Option String
  ipProp : Option String
  port : Option Nat
deriving DecidableEq, Repr

/-- The mapping-extraction step of `analyzePortMapping`
(src/unnamed/part_003 lines 498-516): `ip = ext.address || ext.ip`,
`port = c.port`, and `if (!ip || !port) return null` discards entries
with a falsy IP (null/empty) or a falsy port (null/0). -/
def extractedMapping (c : ICECandidate) : Option ObservedMapping :=
  match jsStrOr c.address c.ipProp, c.port with
  | some s, some p => if s == "" || p == 0 then none else some ⟨s, p⟩
  | some _, none => none
  | none, _ => none

/-- The local `mappings` value of `analyzePortMapping`
(src/unnamed/part_003 lines 495-516): the srflx candidates, with invalid
entries discarded. -/
def validMappings (candidates : List ICECandidate) : List ObservedMapping :=
  (candidates.filter (fun c => c.typ == "srflx")).filterMap extractedMapping

/-- `analyzePortMapping` in src/unnamed/part_003 lines 492-594: filter to
srflx candidates, discard invalid entries, then the zero / one / many
valid-mapping cases.  `new Set(xs).size <= 1` is modelled as
`xs.dedup.length ≤ 1` (console logging elided). -/
def analyzePortMapping (candidates : List ICECandidate) : PortMappingInfo :=
  let mappings := validMappings candidates
  if mappings.length = 0 then
    { isPortConsistent := false, isIPConsistent := false, observedMappings := [] }
  else if mappings.length = 1 then
    { isPortConsistent := true, isIPConsistent := true, observedMappings := mappings }
  else
    { isPortConsistent := decide (((mappings.map (fun m => m.port)).dedup).length ≤ 1)
      isIPConsistent := decide (((mappings.map (fun m => m.ip)).dedup).length ≤ 1)
      observedMappings := mappings }

/-- The confidence computation of `detectWithMultipleServers`
(src/unnamed/part_003 lines 675-677):
`srflxCount >= 2 ? "high" : "low"` where `srflxCount` is the number of
valid observed mappings. -/
def confidenceOf (srflxCount : Nat) : Confidence :=
  if 2 ≤ srflxCount then Confidence.high else Confidence.low

/-- Split a character list at every occurrence of `sep`, keeping empty
segments — the semantics of JavaScript `String.prototype.split` with a
single-character separator. -/
def jsSplitCharAux (sep : Char) : List Char → List (List Char)
  | [] => [[]]
  | c :: rest =>
    let r := jsSplitCharAux sep rest
    if c = sep then [] :: r
    else
      match r with
      | [] => [[c]]
      | h :: t => (c :: h) :: t

/-- JavaScript `s.split(sep)` for a one-character separator. -/
def jsSplitChar (sep : Char) (s : String) : List String :=
  (jsSplitCharAux sep s.toList).map String.mk

/-- JavaScript `Number(s)`, restricted to the inputs the detection code
feeds it (segments of dotted IP strings): the empty string is `0`,
decimal digit strings are their value, anything else is `NaN` (`none`). -/
def jsNumber (s : String) : Option Nat :=
  if s == "" then some 0
  else if s.toList.all Char.isDigit then
    some (s.toList.foldl (fun n c => 10 * n + (c.toNat - '0'.toNat)) 0)
  else none

/-- JavaScript `a || b || null` on nullable strings: a falsy final value
collapses to `null`. -/
def jsStrOrNull (a b : Option String) : Option String :=
  let r := jsStrOr a b
  if strFalsy r then none else r

/-- JavaScript `suffix`-test `s.endsWith(suff)`. -/
def jsEndsWith (suff s : String) : Bool :=
  suff.toList.isSuffixOf s.toList

/-- `isPrivateIP` in src/unnamed/part_003 lines 159-171: RFC 1918 check
on `ip.split(".").map(Number)`. -/
def isPrivateIP (ip : String) : Bool :=
  let octets := (jsSplitChar '.' ip).map jsNumber
  if octets.length ≠ 4 || octets.any (fun o => o == none) then false
  else
    let o0 := (octets.getD 0 none).getD 0
    let o1 := (octets.getD 1 none).getD 0
    o0 == 10 ||
    (o0 == 172 && decide (16 ≤ o1) && decide (o1 ≤ 31)) ||
    (o0 == 192 && o1 == 168)

/-- `isCGNATIP` in src/unnamed/part_003 lines 177-185: RFC 6598
(100.64.0.0/10) check. -/
def isCGNATIP (ip : String) : Bool :=
  let octets := (jsSplitChar '.' ip).map jsNumber
  if octets.length ≠ 4 || octets.any (fun o => o == none) then false
  else
    let o0 := (octets.getD 0 none).getD 0
    let o1 := (octets.getD 1 none).getD 0
    o0 == 100 && decide (64 ≤ o1) && decide (o1 ≤ 127)

/-- `extractIPFromCandidate` in src/unnamed/part_003 lines 379-403: parse
the SDP candidate string, take field 4 if it matches `^[\d.]+$`, else
fall back to the `address`/`ip` properties.  The `try`/`catch` cannot
throw on this data, so it is elided. -/
def extractIPFromCandidate (c : ICECandidate) : Option String :=
  if c.candidate == "" then none
  else
    let parts := jsSplitChar ' ' c.candidate
    if parts.length < 5 then none
    else
      let ip := parts.getD 4 ""
      if !(ip.toList.isEmpty) && ip.toList.all (fun ch => ch.isDigit || ch == '.') then
        some ip
      else jsStrOrNull c.address c.ipProp

/-- `extractIPInfo` in src/unnamed/part_003 lines 427-472: local IP from
the host candidate, public IP/port from the srflx candidate, NAT flags
from the RFC 1918 / mDNS / RFC 6598 rules.  Throwing
`"No host candidate found"` is modelled as `Except.error`. -/
def extractIPInfo (candidates : List ICECandidate) : Except String IPAddressInfo :=
  match candidates.find? (fun c => c.typ == "host") with
  | none => Except.error "No host candidate found"
  | some hostCandidate =>
    let srflxCandidate := candidates.find? (fun c => c.typ == "srflx")
    let localIP := (jsStrOr (jsStrOr (extractIPFromCandidate hostCandidate)
        hostCandidate.address) hostCandidate.ipProp).getD ""
    let publicIP := match srflxCandidate with
      | some sc => jsStrOrNull (jsStrOr (extractIPFromCandidate sc) sc.address) sc.ipProp
      | none => none
    let publicPort := match srflxCandidate with
      | some sc => (match sc.port with | some 0 => none | p => p)
      | none => none
    let isMDNS := jsEndsWith ".local" localIP
    let isBehindLocalNAT := isMDNS || isPrivateIP localIP
    let isBehindCGNAT := match publicIP with
      | some p => isCGNATIP p
      | none => false
    Except.ok ⟨localIP, publicIP, publicPort, isBehindLocalNAT, isBehindCGNAT⟩

/-- The successful outcome of `detectWithMultipleServers`
(src/unnamed/part_003 lines 626-696), restricted to the fields the
claims concern (server labels and reason strings elided). -/
structure BasicDetection where
  ipInfo : IPAddressInfo
  portMapping : PortMappingInfo
  confidence : Confidence
deriving DecidableEq, Repr

/-- The `finishGathering` computation of `detectWithMultipleServers`
(src/unnamed/part_003 lines 654-696): extract IP info (which may fail
with `"No host candidate found"`), analyze the port mappings, and rate
confidence by the number of valid observed mappings. -/
def finishGatheringOutcome (candidates : List ICECandidate) :
    Except String BasicDetection :=
  match extractIPInfo candidates with
  | Except.error e => Except.error e
  | Except.ok ipInfo =>
    let portMapping := analyzePortMapping candidates
    let srflxCount := portMapping.observedMappings.length
    Except.ok ⟨ipInfo, portMapping, confidenceOf srflxCount⟩

/-- One event of the single-threaded reactive loop inside
`detectWithMultipleServers` (src/unnamed/part_003 lines 646-775):
a non-null ICE candidate arriving, the null end-of-gathering candidate,
the `icegatheringstatechange` transition to `"complete"`, the firing of
an adaptive micro-wait timer scheduled by a candidate arrival, and the
firing of the global ceiling timer. -/
inductive ProbeEvent where
  | candidateArrived (c : ICECandidate)
  | nullCandidate
  | gatheringComplete
  | adaptiveTimerFired
  | ceilingTimerFired
deriving DecidableEq, Repr

/-- The mutable state of one `detectWithMultipleServers` run: the
collected candidates, whether some adaptive finish timer has been
scheduled (`setTimeout(finishGathering, waitTime)` at line 741, only
reached once a host candidate and at least one srflx candidate exist),
and the promise settlement (`none` while pending; settlement is
first-wins). -/
structure ProbeState where
  candidates : List ICECandidate
  adaptiveScheduled : Bool
  settled : Option (Except String BasicDetection)
deriving Repr

/-- `finishGathering` (src/unnamed/part_003 lines 654-696): guarded by
the `resolved` flag, so only the first finish settles the promise; a
finish after the ceiling has already rejected is ignored by the promise. -/
def finishStep (s : ProbeState) : ProbeState :=
  match s.settled with
  | some _ => s
  | none => { s with settled := some (finishGatheringOutcome s.candidates) }

/-- The condition arming the adaptive micro-wait
(src/unnamed/part_003 lines 718-730): a host candidate exists and at
least one srflx candidate has arrived. -/
def armsAdaptive (cands : List ICECandidate) : Bool :=
  cands.any (fun x => x.typ == "host") &&
    decide (1 ≤ (cands.filter (fun x => x.typ == "srflx")).length)

/-- One step of the probe event loop (src/unnamed/part_003 lines
646-755): a candidate is pushed and may arm the adaptive wait; the null
candidate and the gathering-complete signal finish gathering; an
adaptive timer finishes gathering only if one was armed; the ceiling
timer rejects with `"Detection timeout"` when the promise is still
pending (`if (!resolved)` at line 647). -/
def stepProbe (s : ProbeState) (e : ProbeEvent) : ProbeState :=
  match e with
  | ProbeEvent.candidateArrived c =>
    let cands := s.candidates ++ [c]
    { s with
      candidates := cands
      adaptiveScheduled := s.adaptiveScheduled || armsAdaptive cands }
  | ProbeEvent.nullCandidate => finishStep s
  | ProbeEvent.gatheringComplete => finishStep s
  | ProbeEvent.adaptiveTimerFired =>
    if s.adaptiveScheduled then finishStep s else s
  | ProbeEvent.ceilingTimerFired =>
    match s.settled with
    | none => { s with settled := some (Except.error "Detection timeout") }
    | some _ => s

/-- Run the probe event loop from the initial state. -/
def runProbe (events : List ProbeEvent) : ProbeState :=
  events.foldl stepProbe ⟨[], false, none⟩

/-- Substring test on character lists — JavaScript
`String.prototype.includes`. -/
def charListContains (needle hay : List Char) : Bool :=
  hay.tails.any (fun t => needle.isPrefixOf t)

/-- JavaScript `hay.includes(needle)` on strings. -/
def jsIncludes (needle hay : String) : Bool :=
  charListContains needle.toList hay.toList

/-- The error mapping in the `catch` of `detectNAT`
(src/unnamed/part_003 lines 844-860): a message containing `"timeout"`
becomes `TIMEOUT`; a message containing `"No host candidate"` becomes
`STUN_UNREACHABLE`; anything else also becomes `STUN_UNREACHABLE`. -/
def mapDetectError (msg : String) : String :=
  if jsIncludes "timeout" msg then "TIMEOUT"
  else if jsIncludes "No host candidate" msg then "STUN_UNREACHABLE"
  else "STUN_UNREACHABLE"

/-- The observable outcome of one `detectNAT` call: resolution with a
basic detection, rejection with an error-code message, or a promise that
never settled within the modelled trace. -/
inductive DetectOutcome where
  | success (r : BasicDetection)
  | failure (code : String)
  | pending
deriving DecidableEq, Repr

/-- `detectNAT` (src/unnamed/part_003 lines 815-861) over a trace of
probe events: `BROWSER_UNSUPPORTED` when `RTCPeerConnection` is absent,
otherwise the probe's settlement with rejections mapped through the
`catch` block. -/
def detectNAT (rtcPeerConnectionAvailable : Bool)
    (events : List ProbeEvent) : DetectOutcome :=
  if !rtcPeerConnectionAvailable then DetectOutcome.failure "BROWSER_UNSUPPORTED"
  else
    match (runProbe events).settled with
    | some (Except.ok r) => DetectOutcome.success r
    | some (Except.error m) => DetectOutcome.failure (mapDetectError m)
    | none => DetectOutcome.pending

/-- Spec-side reading of one probe run: the first settling event of a
trace, starting from the candidates accumulated so far.  Returns
`some (true, cs)` when the run is first settled by the ceiling timer
(with `cs` the candidates collected by then), `some (false, cs)` when it
is first settled by a gathering-finish event (null candidate,
gathering-complete signal, or an armed adaptive timer), and `none` when
the trace never settles the run. -/
def firstSettlement (cs : List ICECandidate) :
    List ProbeEvent → Option (Bool × List ICECandidate)
  | [] => none
  | e :: rest =>
    match e with
    | ProbeEvent.candidateArrived c => firstSettlement (cs ++ [c]) rest
    | ProbeEvent.nullCandidate => some (false, cs)
    | ProbeEvent.gatheringComplete => some (false, cs)
    | ProbeEvent.adaptiveTimerFired =>
      if armsAdaptive cs then some (false, cs) else firstSettlement cs rest
    | ProbeEvent.ceilingTimerFired => some (true, cs)

/-- The four test outcomes of the advanced route
(src/app/api/nat-detect/advanced/route.ts): `passed` flags of
`test1`..`test4` (description strings elided). -/
structure TestOutcomes where
  test1 : Bool
  test2 : Bool
  test3 : Bool
  test4 : Bool
deriving DecidableEq, Repr

/-- `AdvancedDetectionResponse` of the advanced route
(src/app/api/nat-detect/advanced/route.ts lines 33-46), restricted to
the fields the detection logic consumes (description and reason strings
elided). -/
structure AdvancedDetectionResponse where
  success : Bool
  natType : Option NATType
  confidence : Confidence
  tests : TestOutcomes
deriving DecidableEq, Repr

/-- The test-outcome resolution of `performAdvancedTests`
(src/app/api/nat-detect/advanced/route.ts lines 129-152): the if-chain on
`test4.passed`, `test2.passed`, `test3.passed`. -/
def resolveTestOutcomes (test2Passed test3Passed test4Passed : Bool) : NATType :=
  if !test4Passed then NATType.SYMMETRIC
  else if test2Passed then NATType.FULL_CONE
  else if test3Passed then NATType.RESTRICTED_CONE
  else NATType.PORT_RESTRICTED_CONE

/-- `performAdvancedTests` (src/app/api/nat-detect/advanced/route.ts
lines 88-163): the pass/fail outcomes are hardcoded constants
(`test1.passed = true`, `test2.passed = false`, `test3.passed = false`,
`test4.passed = true`), the NAT type is resolved from them, and the
response always carries `success: true` and confidence `"high"`.  The
request fields only flow into description strings (elided); the
simulated delays are irrelevant to the returned value. -/
def performAdvancedTests (publicIP : String) (publicPort : Nat) :
    AdvancedDetectionResponse :=
  let _ := publicIP
  let _ := publicPort
  let test1 := true
  let test2 := false
  let test3 := false
  let test4 := true
  { success := true
    natType := some (resolveTestOutcomes test2 test3 test4)
    confidence := Confidence.high
    tests := ⟨test1, test2, test3, test4⟩ }

/-- The fields of a completed `DetectionResult` that the claims concern
(src/unnamed/part_003 lines 123-151). -/
structure DetectionResultCore where
  natType : Option NATType
  ipInfo : Option IPAddressInfo
  portMapping : Option PortMappingInfo
  confidence : Option Confidence
deriving DecidableEq, Repr

/-- The success-path result assembly of `detectNATAdvanced`
(src/lib/nat-detection/advanced-detector.ts lines 124-137): the final
result takes `ipInfo` and `portMapping` from the basic WebRTC run but
`natType` (`advancedData.natType || CONE_NAT`) and `confidence` from the
advanced server response. -/
def buildAdvancedResult (basicIpInfo : IPAddressInfo)
    (basicPortMapping : PortMappingInfo)
    (advancedData : AdvancedDetectionResponse) : DetectionResultCore :=
  { natType := some (advancedData.natType.getD NATType.CONE_NAT)
    ipInfo := some basicIpInfo
    portMapping := some basicPortMapping
    confidence := some advancedData.confidence }

/-- The success-path result assembly of the basic WebRTC detection path
(src/unnamed/part_000 lines 63-86): natType is `classifyNAT` of the
probe's outputs, confidence is the probe's confidence. -/
def buildBasicResult (ipInfo : IPAddressInfo) (portMapping : PortMappingInfo)
    (confidence : Confidence) : DetectionResultCore :=
  { natType := some (classifyNAT ipInfo portMapping)
    ipInfo := some ipInfo
    portMapping := some portMapping
    confidence := some confidence }

/-- A wire buffer: a list of byte values.  Node `Buffer` in
src/unnamed/part_005. -/
abbrev Buffer := List Nat

/-- Node `buffer.readUInt8(off)`.  Out-of-range reads throw in Node and
never occur on the embedded paths; the total model returns 0 there. -/
def readUInt8 (b : Buffer) (off : Nat) : Nat :=
  match b.drop off with
  | v :: _ => v
  | [] => 0

/-- Node `buffer.readUInt16BE(off)` (big endian).  Out-of-range reads
throw in Node and never occur on the embedded paths. -/
def readUInt16BE (b : Buffer) (off : Nat) : Nat :=
  match b.drop off with
  | b0 :: b1 :: _ => 256 * b0 + b1
  | _ => 0

/-- Node `buffer.readUInt32BE(off)` (big endian).  Out-of-range reads
throw in Node and never occur on the embedded paths. -/
def readUInt32BE (b : Buffer) (off : Nat) : Nat :=
  match b.drop off with
  | b0 :: b1 :: b2 :: b3 :: _ => ((256 * b0 + b1) * 256 + b2) * 256 + b3
  | _ => 0

/-- The two big-endian bytes Node `writeUInt16BE(n)` stores. -/
def writeUInt16BE (n : Nat) : Buffer :=
  [n / 256 % 256, n % 256]

/-- The four big-endian bytes Node `writeUInt32BE(n)` stores. -/
def writeUInt32BE (n : Nat) : Buffer :=
  [n / 16777216 % 256, n / 65536 % 256, n / 256 % 256, n % 256]

/-- `STUN_MAGIC_COOKIE` in src/unnamed/part_005 line 40. -/
def STUN_MAGIC_COOKIE : Nat := 0x2112A442

/-- `STUN_MESSAGE_TYPE.BINDING_REQUEST` (src/unnamed/part_005 line 35). -/
def BINDING_REQUEST : Nat := 0x0001

/-- `STUN_MESSAGE_TYPE.BINDING_RESPONSE` (src/unnamed/part_005 line 36). -/
def BINDING_RESPONSE : Nat := 0x0101

/-- `STUN_ATTR.XOR_MAPPED_ADDRESS` (src/unnamed/part_005 line 45). -/
def XOR_MAPPED_ADDRESS : Nat := 0x0020

/-- `STUN_ATTR.CHANGE_REQUEST` (src/unnamed/part_005 line 46). -/
def CHANGE_REQUEST : Nat := 0x0003

/-- `STUN_ATTR.RESPONSE_ORIGIN` (src/unnamed/part_005 line 47). -/
def RESPONSE_ORIGIN : Nat := 0x802B

/-- `interface STUNMessage` in src/unnamed/part_005 lines 65-70.  The
attribute `Map` is modelled as an association list in most-recent-first
order, so `Map.get` is `List.lookup` (a later `Map.set` wins). -/
structure STUNMessage where
  type : Nat
  length : Nat
  transactionId : Buffer
  attributes : List (Nat × Buffer)
deriving DecidableEq, Repr

/-- The attribute `while` loop of `parseSTUNMessage`
(src/unnamed/part_005 lines 91-105), with explicit fuel (the loop always
terminates since the offset advances by at least 4 each iteration; the
parser passes ample fuel).  `buffer.subarray` clamps to the buffer end,
modelled by `take`/`drop`. -/
def parseAttributesLoop (buffer : Buffer) (msgLen : Nat) :
    Nat → Nat → List (Nat × Buffer) → List (Nat × Buffer)
  | 0, _, acc => acc
  | fuel + 1, offset, acc =>
    if offset < buffer.length ∧ offset < 20 + msgLen then
      if offset + 4 > buffer.length then acc
      else
        let attrType := readUInt16BE buffer offset
        let attrLength := readUInt16BE buffer (offset + 2)
        let attrValue := (buffer.take (offset + 4 + attrLength)).drop (offset + 4)
        parseAttributesLoop buffer msgLen fuel
          (offset + (4 + (attrLength + 3) / 4 * 4)) ((attrType, attrValue) :: acc)
    else acc

/-- `parseSTUNMessage` in src/unnamed/part_005 lines 75-112: reject
buffers shorter than the 20-byte header, validate the magic cookie
before reading any attribute, then collect the attributes.  The
`try`/`catch` is dead on this logic (all reads are guarded and
`subarray` clamps), so the model is total. -/
def parseSTUNMessage (buffer : Buffer) : Option STUNMessage :=
  if buffer.length < 20 then none
  else
    let type := readUInt16BE buffer 0
    let length := readUInt16BE buffer 2
    let magicCookie := readUInt32BE buffer 4
    let transactionId := (buffer.take 20).drop 8
    if magicCookie ≠ STUN_MAGIC_COOKIE then none
    else
      some { type := type
             length := length
             transactionId := transactionId
             attributes := parseAttributesLoop buffer length (buffer.length + 1) 20 [] }

/-- An IPv4 address as its four octets.  The source carries addresses as
dotted-quad strings and splits them with `addr.split(".").map(Number)`
(src/unnamed/part_005 lines 174, 208); the claims quantify over the four
octets directly. -/
structure IPv4Addr where
  o0 : Nat
  o1 : Nat
  o2 : Nat
  o3 : Nat
deriving DecidableEq, Repr

/-- `buildXorMappedAddress` in src/unnamed/part_005 lines 162-199: the
attribute bytes type `0x0020`, length 8, then reserved 0, family 1, the
port XORed with the top 16 bits of the magic cookie, and the four octets
XORed with the cookie bytes.  The unused `_transactionId` parameter is
dropped. -/
def buildXorMappedAddress (addr : IPv4Addr) (port : Nat) : Buffer :=
  let xorPort := port ^^^ (STUN_MAGIC_COOKIE / 65536)
  writeUInt16BE XOR_MAPPED_ADDRESS ++ writeUInt16BE 8 ++
    ([0, 1] ++ writeUInt16BE xorPort ++
      [addr.o0 ^^^ (STUN_MAGIC_COOKIE / 16777216 % 256),
       addr.o1 ^^^ (STUN_MAGIC_COOKIE / 65536 % 256),
       addr.o2 ^^^ (STUN_MAGIC_COOKIE / 256 % 256),
       addr.o3 ^^^ (STUN_MAGIC_COOKIE % 256)])

/-- `buildResponseOrigin` in src/unnamed/part_005 lines 204-225: type
`0x802B`, length 8, reserved 0, family 1, the port, and the four
octets. -/
def buildResponseOrigin (addr : IPv4Addr) (port : Nat) : Buffer :=
  writeUInt16BE RESPONSE_ORIGIN ++ writeUInt16BE 8 ++
    ([0, 1] ++ writeUInt16BE port ++ [addr.o0, addr.o1, addr.o2, addr.o3])

/-- `buildSTUNResponse` in src/unnamed/part_005 lines 117-154: the
20-byte header (type, total attribute length, magic cookie, the
transaction ID copied into 12 bytes) followed by the XOR-mapped-address
attribute and, when a response origin with a truthy port is supplied,
the response-origin attribute.  `transactionId.copy(header, 8)` copies at
most 12 bytes and leaves zeros beyond a shorter id. -/
def buildSTUNResponse (transactionId : Buffer) (clientAddr : IPv4Addr)
    (clientPort : Nat) (origin : Option (IPv4Addr × Nat)) : Buffer :=
  let xorMappedAddr := buildXorMappedAddress clientAddr clientPort
  let attributes : List Buffer :=
    match origin with
    | some (oa, op) =>
      if op ≠ 0 then [xorMappedAddr, buildResponseOrigin oa op]
      else [xorMappedAddr]
    | none => [xorMappedAddr]
  let totalAttrLength := attributes.foldl (fun sum a => sum + a.length) 0
  (writeUInt16BE BINDING_RESPONSE ++ writeUInt16BE totalAttrLength ++
      writeUInt32BE STUN_MAGIC_COOKIE ++
      (transactionId ++ List.replicate 12 0).take 12) ++
    attributes.flatten

/-- The two flags of a change-request attribute. -/
structure ChangeRequestFlags where
  changeIP : Bool
  changePort : Bool
deriving DecidableEq, Repr

/-- `parseChangeRequest` in src/unnamed/part_005 lines 232-245: a value
shorter than 4 bytes yields no flags; otherwise bit 2 of the 32-bit
field is change-IP and bit 1 is change-port. -/
def parseChangeRequest (attrValue : Buffer) : ChangeRequestFlags :=
  if attrValue.length < 4 then ⟨false, false⟩
  else
    let flags := readUInt32BE attrValue 0
    ⟨decide (flags &&& 4 ≠ 0), decide (flags &&& 2 ≠ 0)⟩

/-- `PORTS.PRIMARY` (src/unnamed/part_005 line 28). -/
def PRIMARY_PORT : Nat := 3478

/-- `PORTS.SECONDARY` (src/unnamed/part_005 line 29). -/
def SECONDARY_PORT : Nat := 3479

/-- `PORTS.TERTIARY` (src/unnamed/part_005 line 30). -/
def TERTIARY_PORT : Nat := 3480

/-- One datagram sent by a listener: the response bytes, the UDP source
port of the datagram (the port of the socket that performed
`socket.send`), and the port recorded in the RESPONSE-ORIGIN attribute
(the `responsePort` passed to `buildSTUNResponse`). -/
structure SendAction where
  response : Buffer
  fromPort : Nat
  originPort : Nat
deriving DecidableEq, Repr

/-- The per-message behavior of a listener created by `createSTUNServer`
(src/unnamed/part_005 lines 250-347): drop unparsable datagrams and
non-binding-requests without responding; decode the change-request
flags; on change-port without change-IP the primary listener selects the
secondary port as `responsePort` (a non-primary listener logs and keeps
its own); build the response; then send exactly once — both branches of
`if (responsePort === port)` call `socket.send` on the listener's own
socket, the cross-port branch logging "not implemented yet". -/
def handleSTUNMessage (port : Nat) (localAddr : IPv4Addr) (msg : Buffer)
    (rinfoAddr : IPv4Addr) (rinfoPort : Nat) : Option SendAction :=
  match parseSTUNMessage msg with
  | none => none
  | some stunMsg =>
    if stunMsg.type ≠ BINDING_REQUEST then none
    else
      let flags :=
        match stunMsg.attributes.lookup CHANGE_REQUEST with
        | some v => parseChangeRequest v
        | none => (⟨false, false⟩ : ChangeRequestFlags)
      let responsePort :=
        if flags.changePort && !flags.changeIP then
          if port = PRIMARY_PORT then SECONDARY_PORT else port
        else port
      let response := buildSTUNResponse stunMsg.transactionId rinfoAddr rinfoPort
        (some (localAddr, responsePort))
      if responsePort = port then
        some ⟨response, port, responsePort⟩
      else
        some ⟨response, port, responsePort⟩

end NatChecker

namespace NatChecker

/-- A list has at most one distinct element (`dedup.length ≤ 1`) exactly
when all its members are equal. -/
theorem dedup_length_le_one_iff {α : Type} [DecidableEq α] (l : List α) :
    l.dedup.length ≤ 1 ↔ ∀ a ∈ l, ∀ b ∈ l, a = b := by
  constructor
  · intro h a ha b hb
    have ha' : a ∈ l.dedup := (List.mem_dedup).2 ha
    have hb' : b ∈ l.dedup := (List.mem_dedup).2 hb
    match hd : l.dedup, h with
    | [], _ => rw [hd] at ha'; simp at ha'
    | [x], _ =>
      rw [hd] at ha' hb'
      simp at ha' hb'
      rw [ha', hb']
  · intro h
    match hd : l.dedup with
    | [] => simp
    | x :: rest =>
      have hx : x ∈ l := by
        have : x ∈ l.dedup := by rw [hd]; simp
        exact List.mem_dedup.1 this
      have hsub : ∀ y ∈ rest, y = x := by
        intro y hy
        have : y ∈ l.dedup := by rw [hd]; simp [hy]
        exact h y (List.mem_dedup.1 this) x hx
      have hnd : l.dedup.Nodup := List.nodup_dedup l
      rw [hd] at hnd
      match rest, hsub, hnd with
      | [], _, _ => simp
      | y :: _, hsub, hnd =>
        have hyx : y = x := hsub y (by simp)
        simp [hyx] at hnd

/-- A mapping produced by the extraction step has a nonempty IP and a
nonzero port. -/
theorem extractedMapping_valid (c : ICECandidate) (m : ObservedMapping)
    (h : extractedMapping c = some m) : m.ip ≠ "" ∧ m.port ≠ 0 := by
  cases hip : jsStrOr c.address c.ipProp with
  | none => simp [extractedMapping, hip] at h
  | some s =>
    cases hp : c.port with
    | none => simp [extractedMapping, hip, hp] at h
    | some p =>
      simp only [extractedMapping, hip, hp] at h
      by_cases hc : s == "" || p == 0
      · simp [hc] at h
      · simp only [hc, if_neg, Bool.false_eq_true, ite_false, Option.some.injEq] at h
        simp only [Bool.or_eq_true, beq_iff_eq, not_or] at hc
        subst h
        exact ⟨hc.1, hc.2⟩

/-- `analyzePortMapping` reports exactly the valid extracted mappings. -/
theorem analyzePortMapping_observedMappings (candidates : List ICECandidate) :
    (analyzePortMapping candidates).observedMappings = validMappings candidates := by
  unfold analyzePortMapping
  by_cases h0 : (validMappings candidates).length = 0
  · simp [h0, List.length_eq_zero.1 h0]
  · by_cases h1 : (validMappings candidates).length = 1 <;> simp [h0, h1]

/-- Every reported mapping is valid: nonempty IP, nonzero port. -/
theorem analyzePortMapping_valid (candidates : List ICECandidate) :
    ∀ m ∈ (analyzePortMapping candidates).observedMappings,
      m.ip ≠ "" ∧ m.port ≠ 0 := by
  intro m hm
  rw [analyzePortMapping_observedMappings] at hm
  unfold validMappings at hm
  obtain ⟨c, _, hcm⟩ := List.mem_filterMap.1 hm
  exact extractedMapping_valid c m hcm

/-- Pairwise equality of a mapped list versus pairwise equality of the
projections. -/
theorem forall_map_eq_iff {α β : Type} (l : List α) (f : α → β) :
    (∀ x ∈ l.map f, ∀ y ∈ l.map f, x = y) ↔
    (∀ a ∈ l, ∀ b ∈ l, f a = f b) := by
  constructor
  · intro h a ha b hb
    exact h _ (List.mem_map_of_mem f ha) _ (List.mem_map_of_mem f hb)
  · intro h x hx y hy
    obtain ⟨a, ha, rfl⟩ := List.mem_map.1 hx
    obtain ⟨b, hb, rfl⟩ := List.mem_map.1 hy
    exact h a ha b hb

/-- Claim C2: `analyzePortMapping` discards invalid entries (empty IP or
port zero); with zero valid mappings it reports inconsistent everything
and the run confidence is low; with exactly one it reports consistent
with low confidence; with two or more it reports port-consistent iff all
observed ports are equal and ip-consistent iff all observed external IPs
are equal, with high confidence. -/
theorem analyzePortMapping_cases (candidates : List ICECandidate) :
    (∀ m ∈ (analyzePortMapping candidates).observedMappings,
      m.ip ≠ "" ∧ m.port ≠ 0) ∧
    ((analyzePortMapping candidates).observedMappings.length = 0 →
      (analyzePortMapping candidates).isPortConsistent = false ∧
      (analyzePortMapping candidates).isIPConsistent = false ∧
      confidenceOf (analyzePortMapping candidates).observedMappings.length =
        Confidence.low) ∧
    ((analyzePortMapping candidates).observedMappings.length = 1 →
      (analyzePortMapping candidates).isPortConsistent = true ∧
      (analyzePortMapping candidates).isIPConsistent = true ∧
      confidenceOf (analyzePortMapping candidates).observedMappings.length =
        Confidence.low) ∧
    (2 ≤ (analyzePortMapping candidates).observedMappings.length →
      ((analyzePortMapping candidates).isPortConsistent = true ↔
        ∀ a ∈ (analyzePortMapping candidates).observedMappings,
          ∀ b ∈ (analyzePortMapping candidates).observedMappings,
            a.port = b.port) ∧
      ((analyzePortMapping candidates).isIPConsistent = true ↔
        ∀ a ∈ (analyzePortMapping candidates).observedMappings,
          ∀ b ∈ (analyzePortMapping candidates).observedMappings,
            a.ip = b.ip) ∧
      confidenceOf (analyzePortMapping candidates).observedMappings.length =
        Confidence.high) := by
  have hobs := analyzePortMapping_observedMappings candidates
  refine ⟨analyzePortMapping_valid candidates, ?_, ?_, ?_⟩
  · intro h
    have h' : (validMappings candidates).length = 0 := by rw [← hobs]; exact h
    refine ⟨?_, ?_, ?_⟩
    · simp [analyzePortMapping, h']
    · simp [analyzePortMapping, h']
    · rw [h]; simp [confidenceOf]
  · intro h
    have h' : (validMappings candidates).length = 1 := by rw [← hobs]; exact h
    have h0 : ¬ (validMappings candidates).length = 0 := by omega
    refine ⟨?_, ?_, ?_⟩
    · simp [analyzePortMapping, h0, h']
    · simp [analyzePortMapping, h0, h']
    · rw [h]; simp [confidenceOf]
  · intro h
    have h' : 2 ≤ (validMappings candidates).length := by rw [← hobs]; exact h
    have h0 : ¬ (validMappings candidates).length = 0 := by omega
    have h1 : ¬ (validMappings candidates).length = 1 := by omega
    have hpc : (analyzePortMapping candidates).isPortConsistent =
        decide ((((validMappings candidates).map (fun m => m.port)).dedup).length ≤ 1) := by
      simp [analyzePortMapping, h0, h1]
    have hic : (analyzePortMapping candidates).isIPConsistent =
        decide ((((validMappings candidates).map (fun m => m.ip)).dedup).length ≤ 1) := by
      simp [analyzePortMapping, h0, h1]
    refine ⟨?_, ?_, ?_⟩
    · rw [hpc, hobs]
      simp only [decide_eq_true_eq]
      rw [dedup_length_le_one_iff]
      exact forall_map_eq_iff _ _
    · rw [hic, hobs]
      simp only [decide_eq_true_eq]
      rw [dedup_length_le_one_iff]
      exact forall_map_eq_iff _ _
    · simp [confidenceOf, h]

/-- Witness for C2 at a concrete candidate list: two valid srflx
candidates with equal mappings, one invalid (port 0) srflx candidate and
one host candidate; the analyzer reports consistent with two observed
mappings and high confidence. -/
theorem analyzePortMapping_cases_witness :
    (analyzePortMapping
        [⟨"host", "", some "192.168.1.5", none, some 54321⟩,
         ⟨"srflx", "", some "203.0.113.10", none, some 40000⟩,
         ⟨"srflx", "", some "203.0.113.10", none, some 0⟩,
         ⟨"srflx", "", some "203.0.113.10", none, some 40000⟩]).isPortConsistent
      = true := by
  have h := analyzePortMapping_cases
    [⟨"host", "", some "192.168.1.5", none, some 54321⟩,
     ⟨"srflx", "", some "203.0.113.10", none, some 40000⟩,
     ⟨"srflx", "", some "203.0.113.10", none, some 0⟩,
     ⟨"srflx", "", some "203.0.113.10", none, some 40000⟩]
  refine ((h.2.2.2 (by decide)).1).2 ?_
  decide

/-- Claim C1: `classifyNAT` returns MULTIPLE_LAYERS whenever both
`isBehindLocalNAT` and `isBehindCGNAT` are true, and NO_NAT whenever both
are false, independently of the port-mapping facts. -/
theorem classifyNAT_address_facts_dominate (ipInfo : IPAddressInfo)
    (portMapping : PortMappingInfo) :
    (ipInfo.isBehindLocalNAT = true → ipInfo.isBehindCGNAT = true →
      classifyNAT ipInfo portMapping = NATType.MULTIPLE_LAYERS) ∧
    (ipInfo.isBehindLocalNAT = false → ipInfo.isBehindCGNAT = false →
      classifyNAT ipInfo portMapping = NATType.NO_NAT) := by
  constructor
  · intro h1 h2
    simp [classifyNAT, h1, h2]
  · intro h1 h2
    simp [classifyNAT, h1, h2]

/-- Witness for C1 at concrete inputs: both flags true gives
MULTIPLE_LAYERS, both flags false gives NO_NAT. -/
theorem classifyNAT_address_facts_dominate_witness :
    classifyNAT ⟨"192.168.1.5", some "100.64.0.1", some 40000, true, true⟩
        ⟨false, false, []⟩ = NATType.MULTIPLE_LAYERS ∧
    classifyNAT ⟨"8.8.8.8", some "8.8.8.8", some 40000, false, false⟩
        ⟨false, false, []⟩ = NATType.NO_NAT := by
  refine ⟨?_, ?_⟩
  · exact (classifyNAT_address_facts_dominate
      ⟨"192.168.1.5", some "100.64.0.1", some 40000, true, true⟩
      ⟨false, false, []⟩).1 rfl rfl
  · exact (classifyNAT_address_facts_dominate
      ⟨"8.8.8.8", some "8.8.8.8", some 40000, false, false⟩
      ⟨false, false, []⟩).2 rfl rfl

/-- Claim C9 as stated is false: with `isPortConsistent = false` the
classifier does not always return SYMMETRIC, because the address-range
rules run first.  At an input behind both a local NAT and CGNAT the
result is MULTIPLE_LAYERS. -/
theorem classifyNAT_portInconsistent_not_always_symmetric :
    ¬ (∀ (ipInfo : IPAddressInfo) (portMapping : PortMappingInfo),
        portMapping.isPortConsistent = false →
        classifyNAT ipInfo portMapping = NATType.SYMMETRIC) := by
  intro h
  have := h ⟨"192.168.1.5", some "100.64.0.1", some 40000, true, true⟩
    ⟨false, false, []⟩ rfl
  simp [classifyNAT] at this

/-- Claim C9, amended: when neither address-range rule fires (the two NAT
flags differ), `isPortConsistent = false` forces SYMMETRIC regardless of
`isIPConsistent`. -/
theorem classifyNAT_portInconsistent_symmetric (ipInfo : IPAddressInfo)
    (portMapping : PortMappingInfo)
    (hflag : ipInfo.isBehindLocalNAT ≠ ipInfo.isBehindCGNAT)
    (hport : portMapping.isPortConsistent = false) :
    classifyNAT ipInfo portMapping = NATType.SYMMETRIC := by
  cases h1 : ipInfo.isBehindLocalNAT <;> cases h2 : ipInfo.isBehindCGNAT <;>
    simp [h1, h2] at hflag <;> simp [classifyNAT, h1, h2, hport]

/-- Witness for the amended C9 at a concrete input. -/
theorem classifyNAT_portInconsistent_symmetric_witness :
    classifyNAT ⟨"192.168.1.5", some "203.0.113.10", some 40000, true, false⟩
      ⟨false, true, []⟩ = NATType.SYMMETRIC :=
  classifyNAT_portInconsistent_symmetric
    ⟨"192.168.1.5", some "203.0.113.10", some 40000, true, false⟩
    ⟨false, true, []⟩ (by decide) rfl

/-- Claim C3: the orchestrator's resolution of the four test outcomes
matches the spec table — Test IV failing forces SYMMETRIC regardless of
Tests II/III; otherwise Test II passing gives FULL_CONE; otherwise Test
III passing gives RESTRICTED_CONE; otherwise PORT_RESTRICTED_CONE. -/
theorem resolveTestOutcomes_table :
    (∀ t2 t3 : Bool, resolveTestOutcomes t2 t3 false = NATType.SYMMETRIC) ∧
    (∀ t3 : Bool, resolveTestOutcomes true t3 true = NATType.FULL_CONE) ∧
    resolveTestOutcomes false true true = NATType.RESTRICTED_CONE ∧
    resolveTestOutcomes false false true = NATType.PORT_RESTRICTED_CONE := by
  refine ⟨?_, ?_, rfl, rfl⟩
  · intro t2 t3
    cases t2 <;> cases t3 <;> rfl
  · intro t3
    cases t3 <;> rfl

/-- Claim C10: `performAdvancedTests` returns a constant outcome for
every request — success, test flags (passed, failed, failed, passed),
NAT type PORT_RESTRICTED_CONE and confidence high — so any two requests
receive identical responses. -/
theorem performAdvancedTests_constant (publicIP : String) (publicPort : Nat) :
    (performAdvancedTests publicIP publicPort).success = true ∧
    (performAdvancedTests publicIP publicPort).tests =
      ⟨true, false, false, true⟩ ∧
    (performAdvancedTests publicIP publicPort).natType =
      some NATType.PORT_RESTRICTED_CONE ∧
    (performAdvancedTests publicIP publicPort).confidence = Confidence.high ∧
    (∀ (otherIP : String) (otherPort : Nat),
      performAdvancedTests publicIP publicPort =
        performAdvancedTests otherIP otherPort) :=
  ⟨rfl, rfl, rfl, rfl, fun _ _ => rfl⟩

/-- Claim C7 as stated is false: a completed advanced-path detection
result can carry confidence "high" with only one valid observed mapping
in its measurement record.  The basic probe below yields exactly one
valid mapping (confidence low), yet the assembled advanced result reports
the server's constant "high" confidence. -/
theorem advanced_confidence_high_single_mapping :
    (finishGatheringOutcome
        [⟨"host", "", some "192.168.1.5", none, some 54321⟩,
         ⟨"srflx", "", some "203.0.113.10", none, some 40000⟩] =
      Except.ok
        ⟨⟨"192.168.1.5", some "203.0.113.10", some 40000, true, false⟩,
         ⟨true, true, [⟨"203.0.113.10", 40000⟩]⟩,
         Confidence.low⟩) ∧
    (buildAdvancedResult
        ⟨"192.168.1.5", some "203.0.113.10", some 40000, true, false⟩
        ⟨true, true, [⟨"203.0.113.10", 40000⟩]⟩
        (performAdvancedTests "203.0.113.10" 40000)).confidence =
      some Confidence.high ∧
    (buildAdvancedResult
        ⟨"192.168.1.5", some "203.0.113.10", some 40000, true, false⟩
        ⟨true, true, [⟨"203.0.113.10", 40000⟩]⟩
        (performAdvancedTests "203.0.113.10" 40000)).portMapping.map
      (fun pm => pm.observedMappings.length) = some 1 := by
  refine ⟨rfl, rfl, rfl⟩

/-- Claim C7, amended: the invariant holds on the basic detection path —
the basic probe's confidence is high only when at least two valid
observed mappings exist — while the advanced path copies the server
response's confidence, which is high regardless of the number of
observed mappings in the result's measurement record. -/
theorem confidence_high_mapping_invariant :
    (∀ (candidates : List ICECandidate) (r : BasicDetection),
      finishGatheringOutcome candidates = Except.ok r →
      r.confidence = Confidence.high →
      2 ≤ r.portMapping.observedMappings.length) ∧
    (∀ (basicIpInfo : IPAddressInfo) (basicPortMapping : PortMappingInfo)
        (publicIP : String) (publicPort : Nat),
      (buildAdvancedResult basicIpInfo basicPortMapping
          (performAdvancedTests publicIP publicPort)).confidence =
        some Confidence.high) := by
  constructor
  · intro candidates r hr hconf
    unfold finishGatheringOutcome at hr
    cases hip : extractIPInfo candidates with
    | error e => rw [hip] at hr; cases hr
    | ok ipInfo =>
      rw [hip] at hr
      cases hr
      simp only at hconf
      by_cases h2 : 2 ≤ (analyzePortMapping candidates).observedMappings.length
      · exact h2
      · simp [confidenceOf, h2] at hconf
  · intro _ _ _ _
    rfl

/-- Witness for the amended C7: a probe run with two valid mappings is
rated high confidence, and the theorem recovers that its record indeed
holds two mappings. -/
theorem confidence_high_mapping_invariant_witness :
    2 ≤ ((analyzePortMapping
        [⟨"host", "", some "192.168.1.5", none, some 54321⟩,
         ⟨"srflx", "", some "203.0.113.10", none, some 40000⟩,
         ⟨"srflx", "", some "203.0.113.10", none, some 40000⟩]).observedMappings.length) := by
  refine (confidence_high_mapping_invariant.1
    [⟨"host", "", some "192.168.1.5", none, some 54321⟩,
     ⟨"srflx", "", some "203.0.113.10", none, some 40000⟩,
     ⟨"srflx", "", some "203.0.113.10", none, some 40000⟩]
    ⟨⟨"192.168.1.5", some "203.0.113.10", some 40000, true, false⟩,
     ⟨true, true, [⟨"203.0.113.10", 40000⟩, ⟨"203.0.113.10", 40000⟩]⟩,
     Confidence.high⟩
    rfl rfl)

/-- A list of length 12 is an explicit twelve-element list. -/
theorem length_twelve_explicit (l : List Nat) (h : l.length = 12) :
    ∃ b0 b1 b2 b3 b4 b5 b6 b7 b8 b9 b10 b11,
      l = [b0, b1, b2, b3, b4, b5, b6, b7, b8, b9, b10, b11] := by
  rcases l with _ | ⟨b0, l⟩
  · simp only [List.length_nil] at h; omega
  rcases l with _ | ⟨b1, l⟩
  · simp only [List.length_cons, List.length_nil] at h; omega
  rcases l with _ | ⟨b2, l⟩
  · simp only [List.length_cons, List.length_nil] at h; omega
  rcases l with _ | ⟨b3, l⟩
  · simp only [List.length_cons, List.length_nil] at h; omega
  rcases l with _ | ⟨b4, l⟩
  · simp only [List.length_cons, List.length_nil] at h; omega
  rcases l with _ | ⟨b5, l⟩
  · simp only [List.length_cons, List.length_nil] at h; omega
  rcases l with _ | ⟨b6, l⟩
  · simp only [List.length_cons, List.length_nil] at h; omega
  rcases l with _ | ⟨b7, l⟩
  · simp only [List.length_cons, List.length_nil] at h; omega
  rcases l with _ | ⟨b8, l⟩
  · simp only [List.length_cons, List.length_nil] at h; omega
  rcases l with _ | ⟨b9, l⟩
  · simp only [List.length_cons, List.length_nil] at h; omega
  rcases l with _ | ⟨b10, l⟩
  · simp only [List.length_cons, List.length_nil] at h; omega
  rcases l with _ | ⟨b11, l⟩
  · simp only [List.length_cons, List.length_nil] at h; omega
  rcases l with _ | ⟨c, l⟩
  · exact ⟨b0, b1, b2, b3, b4, b5, b6, b7, b8, b9, b10, b11, rfl⟩
  · simp only [List.length_cons] at h; omega

/-- Claim C4: for every valid IPv4 address (four octets), 16-bit port and
12-byte transaction ID (and any optional response origin), parsing the
bytes built by `buildSTUNResponse` yields a message whose transaction ID
equals the input and whose XOR-mapped-address attribute, when XORed with
the magic cookie again, yields the original address and port. -/
theorem stun_roundtrip (a0 a1 a2 a3 port : Nat) (txid : Buffer)
    (origin : Option (IPv4Addr × Nat))
    (h0 : a0 < 256) (h1 : a1 < 256) (h2 : a2 < 256) (h3 : a3 < 256)
    (hp : port < 65536) (htx : txid.length = 12) :
    ∃ m, parseSTUNMessage
        (buildSTUNResponse txid ⟨a0, a1, a2, a3⟩ port origin) = some m ∧
      m.transactionId = txid ∧
      ∃ v, m.attributes.lookup XOR_MAPPED_ADDRESS = some v ∧
        readUInt16BE v 2 ^^^ (STUN_MAGIC_COOKIE / 65536) = port ∧
        readUInt8 v 4 ^^^ (STUN_MAGIC_COOKIE / 16777216 % 256) = a0 ∧
        readUInt8 v 5 ^^^ (STUN_MAGIC_COOKIE / 65536 % 256) = a1 ∧
        readUInt8 v 6 ^^^ (STUN_MAGIC_COOKIE / 256 % 256) = a2 ∧
        readUInt8 v 7 ^^^ (STUN_MAGIC_COOKIE % 256) = a3 := by
  obtain ⟨t0, t1, t2, t3, t4, t5, t6, t7, t8, t9, t10, t11, rfl⟩ :=
    length_twelve_explicit txid htx
  have hx : port ^^^ 8466 < 65536 := by
    have e : (2 : Nat) ^ 16 = 65536 := by norm_num
    have hp16 : port < 2 ^ 16 := by rw [e]; exact hp
    have h8 : (8466 : Nat) < 2 ^ 16 := by rw [e]; norm_num
    have hb := Nat.xor_lt_two_pow hp16 h8
    rw [e] at hb
    exact hb
  have hsum : 256 * ((port ^^^ 8466) / 256 % 256) + (port ^^^ 8466) % 256 =
      port ^^^ 8466 := by omega
  have hxorp : (256 * ((port ^^^ 8466) / 256 % 256) + (port ^^^ 8466) % 256) ^^^ 8466
      = port := by
    rw [hsum, Nat.xor_assoc, Nat.xor_self, Nat.xor_zero]
  rcases origin with _ | ⟨⟨b0, b1, b2, b3⟩, op⟩
  · refine ⟨⟨257, 12, [t0,t1,t2,t3,t4,t5,t6,t7,t8,t9,t10,t11],
      [(32, [0, 1, (port ^^^ 8466) / 256 % 256, (port ^^^ 8466) % 256,
             a0 ^^^ 33, a1 ^^^ 18, a2 ^^^ 164, a3 ^^^ 66])]⟩, ?_, rfl,
      [0, 1, (port ^^^ 8466) / 256 % 256, (port ^^^ 8466) % 256,
       a0 ^^^ 33, a1 ^^^ 18, a2 ^^^ 164, a3 ^^^ 66], rfl, ?_, ?_, ?_, ?_, ?_⟩
    · simp [buildSTUNResponse, buildXorMappedAddress, parseSTUNMessage,
        parseAttributesLoop, readUInt16BE, readUInt32BE, writeUInt16BE,
        writeUInt32BE, STUN_MAGIC_COOKIE, BINDING_RESPONSE, XOR_MAPPED_ADDRESS,
        List.replicate]
    · exact hxorp
    · show a0 ^^^ 33 ^^^ 33 = a0
      rw [Nat.xor_assoc, Nat.xor_self, Nat.xor_zero]
    · show a1 ^^^ 18 ^^^ 18 = a1
      rw [Nat.xor_assoc, Nat.xor_self, Nat.xor_zero]
    · show a2 ^^^ 164 ^^^ 164 = a2
      rw [Nat.xor_assoc, Nat.xor_self, Nat.xor_zero]
    · show a3 ^^^ 66 ^^^ 66 = a3
      rw [Nat.xor_assoc, Nat.xor_self, Nat.xor_zero]
  · by_cases hop : op = 0
    · subst hop
      refine ⟨⟨257, 12, [t0,t1,t2,t3,t4,t5,t6,t7,t8,t9,t10,t11],
        [(32, [0, 1, (port ^^^ 8466) / 256 % 256, (port ^^^ 8466) % 256,
               a0 ^^^ 33, a1 ^^^ 18, a2 ^^^ 164, a3 ^^^ 66])]⟩, ?_, rfl,
        [0, 1, (port ^^^ 8466) / 256 % 256, (port ^^^ 8466) % 256,
         a0 ^^^ 33, a1 ^^^ 18, a2 ^^^ 164, a3 ^^^ 66], rfl, ?_, ?_, ?_, ?_, ?_⟩
      · simp [buildSTUNResponse, buildXorMappedAddress, parseSTUNMessage,
          parseAttributesLoop, readUInt16BE, readUInt32BE, writeUInt16BE,
          writeUInt32BE, STUN_MAGIC_COOKIE, BINDING_RESPONSE, XOR_MAPPED_ADDRESS,
          List.replicate]
      · exact hxorp
      · show a0 ^^^ 33 ^^^ 33 = a0
        rw [Nat.xor_assoc, Nat.xor_self, Nat.xor_zero]
      · show a1 ^^^ 18 ^^^ 18 = a1
        rw [Nat.xor_assoc, Nat.xor_self, Nat.xor_zero]
      · show a2 ^^^ 164 ^^^ 164 = a2
        rw [Nat.xor_assoc, Nat.xor_self, Nat.xor_zero]
      · show a3 ^^^ 66 ^^^ 66 = a3
        rw [Nat.xor_assoc, Nat.xor_self, Nat.xor_zero]
    · refine ⟨⟨257, 24, [t0,t1,t2,t3,t4,t5,t6,t7,t8,t9,t10,t11],
        [(32811, [0, 1, op / 256 % 256, op % 256, b0, b1, b2, b3]),
         (32, [0, 1, (port ^^^ 8466) / 256 % 256, (port ^^^ 8466) % 256,
               a0 ^^^ 33, a1 ^^^ 18, a2 ^^^ 164, a3 ^^^ 66])]⟩, ?_, rfl,
        [0, 1, (port ^^^ 8466) / 256 % 256, (port ^^^ 8466) % 256,
         a0 ^^^ 33, a1 ^^^ 18, a2 ^^^ 164, a3 ^^^ 66], rfl, ?_, ?_, ?_, ?_, ?_⟩
      · simp [buildSTUNResponse, buildXorMappedAddress, buildResponseOrigin,
          parseSTUNMessage, parseAttributesLoop, readUInt16BE, readUInt32BE,
          writeUInt16BE, writeUInt32BE, STUN_MAGIC_COOKIE, BINDING_RESPONSE,
          XOR_MAPPED_ADDRESS, RESPONSE_ORIGIN, List.replicate, hop]
      · exact hxorp
      · show a0 ^^^ 33 ^^^ 33 = a0
        rw [Nat.xor_assoc, Nat.xor_self, Nat.xor_zero]
      · show a1 ^^^ 18 ^^^ 18 = a1
        rw [Nat.xor_assoc, Nat.xor_self, Nat.xor_zero]
      · show a2 ^^^ 164 ^^^ 164 = a2
        rw [Nat.xor_assoc, Nat.xor_self, Nat.xor_zero]
      · show a3 ^^^ 66 ^^^ 66 = a3
        rw [Nat.xor_assoc, Nat.xor_self, Nat.xor_zero]

/-- Witness for C4 at concrete inputs (address 203.0.113.10, port 40000,
a fixed 12-byte transaction ID, no origin attribute). -/
theorem stun_roundtrip_witness :
    ∃ m, parseSTUNMessage
        (buildSTUNResponse [9, 8, 7, 6, 5, 4, 3, 2, 1, 0, 11, 12]
          ⟨203, 0, 113, 10⟩ 40000 none) = some m ∧
      m.transactionId = [9, 8, 7, 6, 5, 4, 3, 2, 1, 0, 11, 12] ∧
      ∃ v, m.attributes.lookup XOR_MAPPED_ADDRESS = some v ∧
        readUInt16BE v 2 ^^^ (STUN_MAGIC_COOKIE / 65536) = 40000 ∧
        readUInt8 v 4 ^^^ (STUN_MAGIC_COOKIE / 16777216 % 256) = 203 ∧
        readUInt8 v 5 ^^^ (STUN_MAGIC_COOKIE / 65536 % 256) = 0 ∧
        readUInt8 v 6 ^^^ (STUN_MAGIC_COOKIE / 256 % 256) = 113 ∧
        readUInt8 v 7 ^^^ (STUN_MAGIC_COOKIE % 256) = 10 :=
  stun_roundtrip 203 0 113 10 40000 [9, 8, 7, 6, 5, 4, 3, 2, 1, 0, 11, 12] none
    (by decide) (by decide) (by decide) (by decide) (by decide) (by decide)

/-- Claim C5 as stated is false: an attribute whose declared length runs
past the end of the buffer does not make the parser fail.  In the
24-byte buffer below the attribute at offset 20 declares length 100
(bytes up to offset 124 would be needed) yet parsing succeeds, returning
the attribute truncated at the buffer end. -/
theorem parseSTUNMessage_overrun_counterexample :
    ([0, 1, 0, 4, 33, 18, 164, 66, 0, 0, 0, 0, 0, 0, 0, 0, 0, 0, 0, 0,
      0, 3, 0, 100] : Buffer).length = 24 ∧
    readUInt16BE
      [0, 1, 0, 4, 33, 18, 164, 66, 0, 0, 0, 0, 0, 0, 0, 0, 0, 0, 0, 0,
       0, 3, 0, 100] 22 = 100 ∧
    parseSTUNMessage
      [0, 1, 0, 4, 33, 18, 164, 66, 0, 0, 0, 0, 0, 0, 0, 0, 0, 0, 0, 0,
       0, 3, 0, 100] =
      some ⟨1, 4, [0, 0, 0, 0, 0, 0, 0, 0, 0, 0, 0, 0], [(3, [])]⟩ := by
  refine ⟨rfl, rfl, by decide⟩

/-- Claim C5, amended: `parseSTUNMessage` fails exactly when the buffer
is shorter than the fixed 20-byte header or the magic cookie field does
not equal 0x2112A442; the cookie is checked before any attribute is
read, and an attribute whose declared length runs past the buffer is
truncated at the buffer end rather than rejected. -/
theorem parseSTUNMessage_none_iff (buffer : Buffer) :
    parseSTUNMessage buffer = none ↔
      (buffer.length < 20 ∨ readUInt32BE buffer 4 ≠ STUN_MAGIC_COOKIE) := by
  unfold parseSTUNMessage
  by_cases hlen : buffer.length < 20
  · simp [hlen]
  · by_cases hmc : readUInt32BE buffer 4 = STUN_MAGIC_COOKIE
    · simp [hlen, hmc]
    · simp [hlen, hmc]

/-- Claim C6 as stated is false: on a valid binding request carrying a
change-request attribute with change-port set and change-IP clear, the
designated primary listener (port 3478) still sends its single response
from its own port — the cross-port send is not implemented — while
recording the alternate port only in the RESPONSE-ORIGIN attribute. -/
theorem server_changePort_counterexample :
    ((parseSTUNMessage
        [0, 1, 0, 8, 33, 18, 164, 66, 0, 0, 0, 0, 0, 0, 0, 0, 0, 0, 0, 0,
         0, 3, 0, 4, 0, 0, 0, 2]).map
      (fun m => (m.type, m.attributes.lookup CHANGE_REQUEST)) =
      some (1, some [0, 0, 0, 2])) ∧
    parseChangeRequest [0, 0, 0, 2] = ⟨false, true⟩ ∧
    ((handleSTUNMessage PRIMARY_PORT ⟨127, 0, 0, 1⟩
        [0, 1, 0, 8, 33, 18, 164, 66, 0, 0, 0, 0, 0, 0, 0, 0, 0, 0, 0, 0,
         0, 3, 0, 4, 0, 0, 0, 2]
        ⟨203, 0, 113, 10⟩ 40000).map (fun a => a.fromPort) =
      some PRIMARY_PORT) ∧
    PRIMARY_PORT ≠ SECONDARY_PORT := by
  refine ⟨by decide, by decide, by decide, by decide⟩

/-- Claim C6, amended: on every valid binding request carrying a
change-request attribute with change-port set and change-IP clear,
every listener — the primary included — sends exactly one response, from
its own port; the primary alone records the alternate pre-agreed port
(3479) as the response origin port, any other listener records its own
port. -/
theorem handleSTUNMessage_changePort (port : Nat) (localAddr : IPv4Addr)
    (msg : Buffer) (rinfoAddr : IPv4Addr) (rinfoPort : Nat)
    (m : STUNMessage) (v : Buffer)
    (hparse : parseSTUNMessage msg = some m)
    (htype : m.type = BINDING_REQUEST)
    (hattr : m.attributes.lookup CHANGE_REQUEST = some v)
    (hflags : parseChangeRequest v = ⟨false, true⟩) :
    handleSTUNMessage port localAddr msg rinfoAddr rinfoPort =
      some ⟨buildSTUNResponse m.transactionId rinfoAddr rinfoPort
              (some (localAddr,
                if port = PRIMARY_PORT then SECONDARY_PORT else port)),
            port,
            if port = PRIMARY_PORT then SECONDARY_PORT else port⟩ := by
  unfold handleSTUNMessage
  rw [hparse]
  simp only [htype, hattr, hflags, ne_eq, not_true_eq_false, if_false,
    Bool.not_false, Bool.and_self, if_true]
  split_ifs <;> rfl

/-- Witness for the amended C6: the primary listener replies from its own
port 3478 with origin port 3479; the secondary listener replies from and
records its own port 3479. -/
theorem handleSTUNMessage_changePort_witness :
    ((handleSTUNMessage PRIMARY_PORT ⟨127, 0, 0, 1⟩
        [0, 1, 0, 8, 33, 18, 164, 66, 0, 0, 0, 0, 0, 0, 0, 0, 0, 0, 0, 0,
         0, 3, 0, 4, 0, 0, 0, 2]
        ⟨203, 0, 113, 10⟩ 40000).map (fun a => (a.fromPort, a.originPort)) =
      some (PRIMARY_PORT, SECONDARY_PORT)) ∧
    ((handleSTUNMessage SECONDARY_PORT ⟨127, 0, 0, 1⟩
        [0, 1, 0, 8, 33, 18, 164, 66, 0, 0, 0, 0, 0, 0, 0, 0, 0, 0, 0, 0,
         0, 3, 0, 4, 0, 0, 0, 2]
        ⟨203, 0, 113, 10⟩ 40000).map (fun a => (a.fromPort, a.originPort)) =
      some (SECONDARY_PORT, SECONDARY_PORT)) := by
  constructor
  · rw [handleSTUNMessage_changePort PRIMARY_PORT ⟨127, 0, 0, 1⟩
      [0, 1, 0, 8, 33, 18, 164, 66, 0, 0, 0, 0, 0, 0, 0, 0, 0, 0, 0, 0,
       0, 3, 0, 4, 0, 0, 0, 2]
      ⟨203, 0, 113, 10⟩ 40000
      ⟨1, 8, [0, 0, 0, 0, 0, 0, 0, 0, 0, 0, 0, 0], [(3, [0, 0, 0, 2])]⟩
      [0, 0, 0, 2] (by decide) rfl (by decide) (by decide)]
    decide
  · rw [handleSTUNMessage_changePort SECONDARY_PORT ⟨127, 0, 0, 1⟩
      [0, 1, 0, 8, 33, 18, 164, 66, 0, 0, 0, 0, 0, 0, 0, 0, 0, 0, 0, 0,
       0, 3, 0, 4, 0, 0, 0, 2]
      ⟨203, 0, 113, 10⟩ 40000
      ⟨1, 8, [0, 0, 0, 0, 0, 0, 0, 0, 0, 0, 0, 0], [(3, [0, 0, 0, 2])]⟩
      [0, 0, 0, 2] (by decide) rfl (by decide) (by decide)]
    decide

/-- Arming the adaptive wait is monotone under candidate arrival. -/
theorem armsAdaptive_append_one (cs : List ICECandidate) (c : ICECandidate)
    (h : armsAdaptive cs = true) : armsAdaptive (cs ++ [c]) = true := by
  unfold armsAdaptive at h ⊢
  simp only [List.any_append, List.filter_append, List.length_append,
    Bool.and_eq_true, Bool.or_eq_true, decide_eq_true_eq] at h ⊢
  obtain ⟨h1, h2⟩ := h
  exact ⟨Or.inl h1, by omega⟩

/-- Once the probe promise has settled, later events never change the
settlement. -/
theorem settled_stays (events : List ProbeEvent) :
    ∀ (s : ProbeState) (x : Except String BasicDetection),
    s.settled = some x → (events.foldl stepProbe s).settled = some x := by
  induction events with
  | nil => intro s x h; simpa using h
  | cons e rest ih =>
    intro s x h
    have hstep : (stepProbe s e).settled = some x := by
      cases e with
      | candidateArrived c => simpa [stepProbe] using h
      | nullCandidate => simp [stepProbe, finishStep, h]
      | gatheringComplete => simp [stepProbe, finishStep, h]
      | adaptiveTimerFired =>
        by_cases ha : s.adaptiveScheduled = true
        · simp [stepProbe, ha, finishStep, h]
        · rw [Bool.not_eq_true] at ha
          simp [stepProbe, ha, h]
      | ceilingTimerFired => simp [stepProbe, h]
    rw [List.foldl_cons]
    exact ih _ _ hstep

/-- The probe event loop settles exactly at the trace's first settling
event: a ceiling firing rejects with `"Detection timeout"`, a
gathering-finish event settles with the finish computation over the
candidates collected so far. -/
theorem foldl_stepProbe_settled (events : List ProbeEvent) :
    ∀ (s : ProbeState), s.settled = none →
    s.adaptiveScheduled = armsAdaptive s.candidates →
    (events.foldl stepProbe s).settled =
      (match firstSettlement s.candidates events with
      | none => none
      | some (true, _) => some (Except.error "Detection timeout")
      | some (false, cs) => some (finishGatheringOutcome cs)) := by
  induction events with
  | nil => intro s h0 _; simpa [firstSettlement] using h0
  | cons e rest ih =>
    intro s h0 hsched
    cases e with
    | candidateArrived c =>
      rw [List.foldl_cons]
      have hs0 : (stepProbe s (ProbeEvent.candidateArrived c)).settled = none := by
        simp [stepProbe, h0]
      have hsched' : (stepProbe s (ProbeEvent.candidateArrived c)).adaptiveScheduled =
          armsAdaptive (stepProbe s (ProbeEvent.candidateArrived c)).candidates := by
        simp only [stepProbe]
        rw [hsched]
        by_cases h : armsAdaptive s.candidates = true
        · rw [h, armsAdaptive_append_one _ _ h]
          rfl
        · rw [Bool.not_eq_true] at h
          rw [h]
          simp
      rw [ih _ hs0 hsched']
      simp [firstSettlement, stepProbe]
    | nullCandidate =>
      rw [List.foldl_cons]
      have hset : (stepProbe s ProbeEvent.nullCandidate).settled =
          some (finishGatheringOutcome s.candidates) := by
        simp [stepProbe, finishStep, h0]
      rw [settled_stays rest _ _ hset]
      simp [firstSettlement]
    | gatheringComplete =>
      rw [List.foldl_cons]
      have hset : (stepProbe s ProbeEvent.gatheringComplete).settled =
          some (finishGatheringOutcome s.candidates) := by
        simp [stepProbe, finishStep, h0]
      rw [settled_stays rest _ _ hset]
      simp [firstSettlement]
    | adaptiveTimerFired =>
      rw [List.foldl_cons]
      by_cases ha : s.adaptiveScheduled = true
      · have harm : armsAdaptive s.candidates = true := by rw [← hsched]; exact ha
        have hset : (stepProbe s ProbeEvent.adaptiveTimerFired).settled =
            some (finishGatheringOutcome s.candidates) := by
          simp [stepProbe, ha, finishStep, h0]
        rw [settled_stays rest _ _ hset]
        simp [firstSettlement, harm]
      · rw [Bool.not_eq_true] at ha
        have harm : armsAdaptive s.candidates = false := by rw [← hsched]; exact ha
        have hstep : stepProbe s ProbeEvent.adaptiveTimerFired = s := by
          simp [stepProbe, ha]
        rw [hstep, ih s h0 hsched]
        simp [firstSettlement, harm]
    | ceilingTimerFired =>
      rw [List.foldl_cons]
      have hset : (stepProbe s ProbeEvent.ceilingTimerFired).settled =
          some (Except.error "Detection timeout") := by
        simp [stepProbe, h0]
      rw [settled_stays rest _ _ hset]
      simp [firstSettlement]

/-- The finish computation errors exactly when no host candidate was
collected, and then with the message `"No host candidate found"`. -/
theorem finishGatheringOutcome_host_cases (cs : List ICECandidate) :
    (cs.any (fun c => c.typ == "host") = false →
      finishGatheringOutcome cs = Except.error "No host candidate found") ∧
    (cs.any (fun c => c.typ == "host") = true →
      ∃ r, finishGatheringOutcome cs = Except.ok r) := by
  constructor
  · intro h
    have hf : cs.find? (fun c => c.typ == "host") = none := by
      rw [List.find?_eq_none]
      intro x hx
      simp only [List.any_eq_false] at h
      exact h x hx
    simp [finishGatheringOutcome, extractIPInfo, hf]
  · intro h
    cases hf : cs.find? (fun c => c.typ == "host") with
    | none =>
      exfalso
      rw [List.find?_eq_none] at hf
      obtain ⟨x, hx, hpx⟩ := List.any_eq_true.1 h
      exact hf x hx hpx
    | some hc =>
      simp only [finishGatheringOutcome, extractIPInfo, hf]
      exact ⟨_, rfl⟩

/-- Evaluation of `detectNAT`: a trace that never settles leaves the
promise pending. -/
theorem detectNAT_true_eval_pending (events : List ProbeEvent)
    (hfs : firstSettlement [] events = none) :
    detectNAT true events = DetectOutcome.pending := by
  have hrun : (runProbe events).settled =
      (match firstSettlement [] events with
      | none => none
      | some (true, _) => some (Except.error "Detection timeout")
      | some (false, cs) => some (finishGatheringOutcome cs)) :=
    foldl_stepProbe_settled events ⟨[], false, none⟩ rfl rfl
  have hset : (runProbe events).settled = none := by rw [hrun, hfs]
  rw [show detectNAT true events =
      (match (runProbe events).settled with
      | some (Except.ok r) => DetectOutcome.success r
      | some (Except.error m) => DetectOutcome.failure (mapDetectError m)
      | none => DetectOutcome.pending) from rfl]
  rw [hset]

/-- Evaluation of `detectNAT`: a trace first settled by the ceiling timer
fails with TIMEOUT. -/
theorem detectNAT_true_eval_ceiling (events : List ProbeEvent)
    (cs : List ICECandidate)
    (hfs : firstSettlement [] events = some (true, cs)) :
    detectNAT true events = DetectOutcome.failure "TIMEOUT" := by
  have hrun : (runProbe events).settled =
      (match firstSettlement [] events with
      | none => none
      | some (true, _) => some (Except.error "Detection timeout")
      | some (false, cs) => some (finishGatheringOutcome cs)) :=
    foldl_stepProbe_settled events ⟨[], false, none⟩ rfl rfl
  have hset : (runProbe events).settled =
      some (Except.error "Detection timeout") := by rw [hrun, hfs]
  rw [show detectNAT true events =
      (match (runProbe events).settled with
      | some (Except.ok r) => DetectOutcome.success r
      | some (Except.error m) => DetectOutcome.failure (mapDetectError m)
      | none => DetectOutcome.pending) from rfl]
  rw [hset]
  show DetectOutcome.failure (mapDetectError "Detection timeout") =
    DetectOutcome.failure "TIMEOUT"
  rw [show mapDetectError "Detection timeout" = "TIMEOUT" from by decide]

/-- Evaluation of `detectNAT`: a trace first settled by a gathering
finish whose computation succeeds resolves with that result. -/
theorem detectNAT_true_eval_finish_ok (events : List ProbeEvent)
    (cs : List ICECandidate) (r : BasicDetection)
    (hfs : firstSettlement [] events = some (false, cs))
    (hog : finishGatheringOutcome cs = Except.ok r) :
    detectNAT true events = DetectOutcome.success r := by
  have hrun : (runProbe events).settled =
      (match firstSettlement [] events with
      | none => none
      | some (true, _) => some (Except.error "Detection timeout")
      | some (false, cs) => some (finishGatheringOutcome cs)) :=
    foldl_stepProbe_settled events ⟨[], false, none⟩ rfl rfl
  have hset : (runProbe events).settled =
      some (finishGatheringOutcome cs) := by rw [hrun, hfs]
  rw [show detectNAT true events =
      (match (runProbe events).settled with
      | some (Except.ok r) => DetectOutcome.success r
      | some (Except.error m) => DetectOutcome.failure (mapDetectError m)
      | none => DetectOutcome.pending) from rfl]
  rw [hset, hog]

/-- Evaluation of `detectNAT`: a trace first settled by a gathering
finish whose computation errors rejects and maps the message through the
`catch` block. -/
theorem detectNAT_true_eval_finish_error (events : List ProbeEvent)
    (cs : List ICECandidate) (m : String)
    (hfs : firstSettlement [] events = some (false, cs))
    (hog : finishGatheringOutcome cs = Except.error m) :
    detectNAT true events = DetectOutcome.failure (mapDetectError m) := by
  have hrun : (runProbe events).settled =
      (match firstSettlement [] events with
      | none => none
      | some (true, _) => some (Except.error "Detection timeout")
      | some (false, cs) => some (finishGatheringOutcome cs)) :=
    foldl_stepProbe_settled events ⟨[], false, none⟩ rfl rfl
  have hset : (runProbe events).settled =
      some (finishGatheringOutcome cs) := by rw [hrun, hfs]
  rw [show detectNAT true events =
      (match (runProbe events).settled with
      | some (Except.ok r) => DetectOutcome.success r
      | some (Except.error m) => DetectOutcome.failure (mapDetectError m)
      | none => DetectOutcome.pending) from rfl]
  rw [hset, hog]

/-- An error message produced by the finish computation is always
`"No host candidate found"`. -/
theorem finishGatheringOutcome_error_msg (cs : List ICECandidate) (m : String)
    (h : finishGatheringOutcome cs = Except.error m) :
    m = "No host candidate found" := by
  cases hf : cs.find? (fun c => c.typ == "host") with
  | none =>
    simp [finishGatheringOutcome, extractIPInfo, hf] at h
    exact h.symm
  | some hc =>
    simp [finishGatheringOutcome, extractIPInfo, hf] at h

/-- Claim C8 as stated is false on two counts.  First, a run in which a
host candidate arrives and then the 15000ms ceiling fires fails with
TIMEOUT even though a local (host) mapping was produced.  Second, a run
in which a host candidate arrives and gathering completes with no
external mapping resolves successfully instead of failing with
STUN_UNREACHABLE. -/
theorem detectNAT_errors_counterexample :
    detectNAT true
        [ProbeEvent.candidateArrived ⟨"host", "", some "192.168.1.5", none, some 54321⟩,
         ProbeEvent.ceilingTimerFired] = DetectOutcome.failure "TIMEOUT" ∧
    (⟨"host", "", some "192.168.1.5", none, some 54321⟩ : ICECandidate).typ = "host" ∧
    detectNAT true
        [ProbeEvent.candidateArrived ⟨"host", "", some "192.168.1.5", none, some 54321⟩,
         ProbeEvent.gatheringComplete] =
      DetectOutcome.success
        ⟨⟨"192.168.1.5", none, none, true, false⟩, ⟨false, false, []⟩,
         Confidence.low⟩ := by
  refine ⟨by decide, rfl, by decide⟩

/-- Claim C8, amended: `detectNAT` fails with BROWSER_UNSUPPORTED exactly
when `RTCPeerConnection` is absent; with the transport available it fails
with TIMEOUT exactly when the run's first settling event is the 15000ms
ceiling firing — whether or not a local (host) mapping was produced — and
it fails with STUN_UNREACHABLE exactly when the first settling event is a
gathering-finish with no host candidate collected (a finish with a host
candidate but no external mapping resolves successfully instead). -/
theorem detectNAT_error_characterization (rtc : Bool) (events : List ProbeEvent) :
    (detectNAT rtc events = DetectOutcome.failure "BROWSER_UNSUPPORTED" ↔
      rtc = false) ∧
    (rtc = true →
      ((detectNAT rtc events = DetectOutcome.failure "TIMEOUT" ↔
        (∃ cs, firstSettlement [] events = some (true, cs))) ∧
       (detectNAT rtc events = DetectOutcome.failure "STUN_UNREACHABLE" ↔
        (∃ cs, firstSettlement [] events = some (false, cs) ∧
          cs.any (fun c => c.typ == "host") = false)))) := by
  cases rtc with
  | false =>
    refine ⟨⟨fun _ => rfl, fun _ => rfl⟩, ?_⟩
    intro h
    cases h
  | true =>
    have heval : ∀ (target : String),
        detectNAT true events = DetectOutcome.failure target →
        (target = "TIMEOUT" ∧ ∃ cs, firstSettlement [] events = some (true, cs)) ∨
        (target = "STUN_UNREACHABLE" ∧ ∃ cs,
          firstSettlement [] events = some (false, cs) ∧
          cs.any (fun c => c.typ == "host") = false) := by
      intro target h
      cases hfs : firstSettlement [] events with
      | none =>
        rw [detectNAT_true_eval_pending events hfs] at h
        cases h
      | some p =>
        obtain ⟨b, cs⟩ := p
        cases b with
        | true =>
          rw [detectNAT_true_eval_ceiling events cs hfs] at h
          cases h
          exact Or.inl ⟨rfl, cs, rfl⟩
        | false =>
          cases hog : finishGatheringOutcome cs with
          | ok r =>
            rw [detectNAT_true_eval_finish_ok events cs r hfs hog] at h
            cases h
          | error m =>
            have hm := finishGatheringOutcome_error_msg cs m hog
            subst hm
            rw [detectNAT_true_eval_finish_error events cs _ hfs hog] at h
            rw [show mapDetectError "No host candidate found" = "STUN_UNREACHABLE"
              from by decide] at h
            cases h
            refine Or.inr ⟨rfl, cs, rfl, ?_⟩
            by_contra hh
            rw [Bool.not_eq_false] at hh
            obtain ⟨r, hok⟩ := (finishGatheringOutcome_host_cases cs).2 hh
            rw [hok] at hog
            cases hog
    constructor
    · constructor
      · intro h
        rcases heval _ h with ⟨h1, _⟩ | ⟨h1, _⟩ <;> exact absurd h1 (by decide)
      · intro h
        cases h
    · intro _
      constructor
      · constructor
        · intro h
          rcases heval _ h with ⟨_, hcs⟩ | ⟨h1, _⟩
          · exact hcs
          · exact absurd h1 (by decide)
        · rintro ⟨cs, hfs⟩
          exact detectNAT_true_eval_ceiling events cs hfs
      · constructor
        · intro h
          rcases heval _ h with ⟨h1, _⟩ | ⟨_, hcs⟩
          · exact absurd h1 (by decide)
          · exact hcs
        · rintro ⟨cs, hfs, hhost⟩
          have hog := (finishGatheringOutcome_host_cases cs).1 hhost
          rw [detectNAT_true_eval_finish_error events cs _ hfs hog]
          rw [show mapDetectError "No host candidate found" = "STUN_UNREACHABLE"
            from by decide]

/-- Witness for the amended C8 at concrete inputs: a trace settled first
by the ceiling fails with TIMEOUT; a trace settled first by a
gathering-finish without a host candidate fails with STUN_UNREACHABLE;
and with the transport absent the failure is BROWSER_UNSUPPORTED. -/
theorem detectNAT_error_characterization_witness :
    detectNAT true [ProbeEvent.ceilingTimerFired] =
      DetectOutcome.failure "TIMEOUT" ∧
    detectNAT true [ProbeEvent.gatheringComplete] =
      DetectOutcome.failure "STUN_UNREACHABLE" ∧
    detectNAT false [] = DetectOutcome.failure "BROWSER_UNSUPPORTED" := by
  refine ⟨?_, ?_, ?_⟩
  · exact ((detectNAT_error_characterization true [ProbeEvent.ceilingTimerFired]).2
      rfl).1.mpr ⟨[], by decide⟩
  · exact ((detectNAT_error_characterization true [ProbeEvent.gatheringComplete]).2
      rfl).2.mpr ⟨[], by decide, by decide⟩
  · exact (detectNAT_error_characterization false []).1.mpr rfl

end NatChecker
